import Mathlib

/-!
# Verification of the cascade-at measurement-input assembler

A shallow embedding of `src/cascade_at/collector/measurement_inputs.py`
(class `MeasurementInputs`): pandas data frames become association-list rows,
Python floats become rationals with an explicit `null` value standing for
`NaN`/`None`, and code that can raise returns `Except String`.

The covariate interpolation engine (`get_interpolated_covariate_values`), the
location DAG collaborator, `SEX_MAP` and `make_integrand_map` are imported by
the source from modules that are not part of the sources here; they are
modelled from the spec where needed (each such definition says so in its
doc comment).
-/

namespace CascadeAT

/-- A cell value of a pandas data frame: integers, floats (modelled as
rationals), strings, and `null` standing for `NaN`/missing. -/
inductive Val where
  | int (z : ℤ)
  | num (q : ℚ)
  | str (s : String)
  | null
deriving DecidableEq, Repr

/-- A data-frame row: an association list from column name to value.
A column missing from the row reads as `null`, mirroring how `pd.concat`
fills columns absent from one of its inputs with `NaN`. -/
abbrev RowA : Type := List (String × Val)

/-- A data frame: a list of rows in order (positional index). -/
abbrev Frame : Type := List RowA

/-- Read column `c` of a row; missing columns read as `null` (`NaN`). -/
def getCol (r : RowA) (c : String) : Val :=
  match List.find? (fun p => p.1 = c) r with
  | some p => p.2
  | none => Val.null

/-- Does the row carry column `c`? -/
def colHas (r : RowA) (c : String) : Bool :=
  List.any r (fun p => p.1 = c)

/-- Write column `c` of a row (`df[c] = ...` for one row): replace the value
if the column exists, append the column otherwise. -/
def setCol (r : RowA) (c : String) (v : Val) : RowA :=
  if colHas r c then
    List.map (fun p => if p.1 = c then (c, v) else p) r
  else
    r ++ [(c, v)]

/-- Remove column `c` from a row. -/
def dropKey (r : RowA) (c : String) : RowA :=
  List.filter (fun p => ¬ p.1 = c) r

/-- Does every row of the frame carry column `c`? -/
def frameHasCol (f : Frame) (c : String) : Bool :=
  List.all f (fun r => colHas r c)

/-- Pandas `df.drop([c], axis=1)`: raises `KeyError` when the column is absent. -/
def dropColE (f : Frame) (c : String) : Except String Frame :=
  if frameHasCol f c then Except.ok (List.map (fun r => dropKey r c) f)
  else Except.error "KeyError"

/-- Numeric view of a cell (`None` for strings and `null`). -/
def Val.toQ : Val → Option ℚ
  | Val.int z => some (z : ℚ)
  | Val.num q => some q
  | _ => none

/-- Integer view of a cell (integers, and floats with denominator 1). -/
def Val.toZ : Val → Option ℤ
  | Val.int z => some z
  | Val.num q => if q.den = 1 then some q.num else none
  | _ => none

/-- Binary minimum and maximum of rationals, written out so that concrete
values evaluate in the kernel. -/
def qmin2 (x y : ℚ) : ℚ := if x ≤ y then x else y

def qmax2 (x y : ℚ) : ℚ := if x ≤ y then y else x

/-- Rational division, written via `Rat.divInt` so that concrete values
evaluate in the kernel; equal to `x / y` (see `qdiv_eq_div`), with the
division-by-zero convention `qdiv x 0 = 0`. -/
def qdiv (x y : ℚ) : ℚ := Rat.divInt (x.num * (y.den : ℤ)) ((x.den : ℤ) * y.num)

/-- Rational multiplication via `Rat.divInt` (kernel-computable; equal to
`x * y`, see `qmul_eq_mul`). -/
def qmul (x y : ℚ) : ℚ := Rat.divInt (x.num * y.num) ((x.den : ℤ) * (y.den : ℤ))

/-- Rational addition via `Rat.divInt` (kernel-computable; equal to
`x + y`, see `qadd_eq_add`). -/
def qadd (x y : ℚ) : ℚ :=
  Rat.divInt (x.num * (y.den : ℤ) + y.num * (x.den : ℤ)) ((x.den : ℤ) * (y.den : ℤ))

/-- Rational subtraction via `Rat.divInt` (kernel-computable; equal to
`x - y`, see `qsub_eq_sub`). -/
def qsub (x y : ℚ) : ℚ :=
  Rat.divInt (x.num * (y.den : ℤ) - y.num * (x.den : ℤ)) ((x.den : ℤ) * (y.den : ℤ))

/-- Sum of a list of rationals in list order (kernel-computable; equal to
`l.sum`, see `qsum_eq_sum`). -/
def qsum (l : List ℚ) : ℚ := List.foldr qadd 0 l

/-- Absolute value on rationals, written out so that concrete values
evaluate in the kernel; equal to `|x|` (see `qabs_eq_abs`). -/
def qabs (x : ℚ) : ℚ := if x.num < 0 then -x else x

/-- Minimum of a list of rationals, `none` when empty (pandas `Series.min()`
returns `NaN` on an empty or all-`NaN` series). -/
def qmin? : List ℚ → Option ℚ
  | [] => none
  | x :: xs =>
    match qmin? xs with
    | none => some x
    | some y => some (qmin2 x y)

/-- Maximum of a list of rationals, `none` when empty (`np.max` on a pandas
series dispatches to `Series.max()`, which is `NaN` on an empty series). -/
def qmax? : List ℚ → Option ℚ
  | [] => none
  | x :: xs =>
    match qmax? xs with
    | none => some x
    | some y => some (qmax2 x y)

/-- Pandas `df[c].min()` over the numeric cells of column `c` (`NaN`s skipped,
`none` = `NaN` when nothing is numeric). -/
def colMinQ (f : Frame) (c : String) : Option ℚ :=
  qmin? (List.filterMap (fun r => Val.toQ (getCol r c)) f)

/-- Pandas `df[c].max()` over the numeric cells of column `c`. -/
def colMaxQ (f : Frame) (c : String) : Option ℚ :=
  qmax? (List.filterMap (fun r => Val.toQ (getCol r c)) f)

/-- One record of a covariate series: location, sex, age bin, year, value
(spec §3 "Covariate series"). -/
structure CovRecord where
  location_id : ℤ
  sex_id : ℤ
  age_lower : ℚ
  age_upper : ℚ
  year : ℚ
  mean_value : ℚ
deriving DecidableEq, Repr

/-- One population-weight record (spec §3 "Population weights"). -/
structure PopRecord where
  location_id : ℤ
  sex_id : ℤ
  age_lower : ℚ
  age_upper : ℚ
  year : ℚ
  population : ℚ
deriving DecidableEq, Repr

/-- A target row for the interpolation engine: location, sex and an
age/time window (spec §4.1 contract). -/
structure TargetRow where
  location_id : ℤ
  sex_id : ℤ
  age_lower : ℚ
  age_upper : ℚ
  time_lower : ℚ
  time_upper : ℚ
deriving DecidableEq, Repr

/-- Covariate specification: identifier, column name, and whether it is a
"study" or "country" covariate (spec §3). -/
structure CovSpec where
  covariate_id : ℤ
  name : String
  study_country : String
deriving DecidableEq, Repr

/-- Modelled from the spec (§4.1 step 1): a covariate record intersects a
target row when its location matches and its age bin and year intersect the
row's age/time window (closed intervals). The "location-invariant grid"
variant is not modelled: covariate records here always carry a location id. -/
def covIntersects (t : TargetRow) (c : CovRecord) : Bool :=
  decide (c.location_id = t.location_id) &&
  decide (c.age_lower ≤ t.age_upper) && decide (t.age_lower ≤ c.age_upper) &&
  decide (t.time_lower ≤ c.year) && decide (c.year ≤ t.time_upper)

/-- Modelled from the spec (§4.1 step 2): the weight of an intersecting
covariate record is the population looked up by matching location, sex,
age bin and year, with sex id 3 ("both") as a fallback weight source when
sex-specific population is unavailable; 0 when neither is present. -/
def popWeight (pop : List PopRecord) (t : TargetRow) (c : CovRecord) : ℚ :=
  let find := fun (sid : ℤ) =>
    List.find? (fun p =>
      decide (p.location_id = c.location_id) && decide (p.sex_id = sid) &&
      decide (p.age_lower = c.age_lower) && decide (p.age_upper = c.age_upper) &&
      decide (p.year = c.year)) pop
  match find t.sex_id with
  | some p => p.population
  | none =>
    match find 3 with
    | some p => p.population
    | none => 0

/-- Modelled from the spec (§4.1 step 3): the population-weighted mean of the
values of all intersecting covariate records; 0.0 when no record intersects
(the explicit degraded-data fallback). A zero total weight also yields 0
(rational division by zero). -/
def interpOne (cov : List CovRecord) (pop : List PopRecord) (t : TargetRow) : ℚ :=
  let recs := List.filter (covIntersects t) cov
  if recs.isEmpty then 0
  else
    let ws := List.map (popWeight pop t) recs
    qdiv (qsum (List.zipWith (fun w v => qmul w v) ws (List.map CovRecord.mean_value recs)))
      (qsum ws)

/-- Interpolated value for one (possibly degenerate) target row: a target of
`none` models a row whose coordinates contain `NaN`, which intersects no
covariate record (every IEEE comparison with `NaN` is false) and therefore
falls back to 0.0. -/
def interpValue (cov : List CovRecord) (pop : List PopRecord) : Option TargetRow → ℚ
  | none => 0
  | some t => interpOne cov pop t

/-- Modelled from the spec (§4.1): `get_interpolated_covariate_values`
(`cascade_at.inputs.utilities.covariate_weighting`, not among the sources):
one interpolated value per target row, computed independently per row in
list order. -/
def getInterpolatedCovariateValues (targets : List (Option TargetRow))
    (cov : List CovRecord) (pop : List PopRecord) : List ℚ :=
  List.map (interpValue cov pop) targets

/-- View of a data-frame row as an interpolation target; `none` when any of
the six coordinates is missing or non-numeric (a `NaN` coordinate). -/
def toTarget (r : RowA) : Option TargetRow := do
  let loc ← Val.toZ (getCol r "location_id")
  let sex ← Val.toZ (getCol r "sex_id")
  let aLo ← Val.toQ (getCol r "age_lower")
  let aHi ← Val.toQ (getCol r "age_upper")
  let tLo ← Val.toQ (getCol r "time_lower")
  let tHi ← Val.toQ (getCol r "time_upper")
  pure ⟨loc, sex, aLo, aHi, tLo, tHi⟩

/-- One entry of `settings.data_eta_by_integrand`: a per-integrand eta. -/
structure EtaByIntegrand where
  integrand_measure_id : ℤ
  value : ℚ
deriving DecidableEq, Repr

/-- One entry of `settings.data_density_by_integrand`. -/
structure DensityByIntegrand where
  integrand_measure_id : ℤ
  value : String
deriving DecidableEq, Repr

/-- The settings Configuration fields used by `MeasurementInputs`
(spec §6: named optional fields with an explicit "is this field set" query;
`none` models an unset field, and for `eta.data` / `model.data_density` the
source additionally tests Python truthiness, modelled as `≠ 0` / `≠ ""`). -/
structure Settings where
  eta_data : Option ℚ
  model_data_density : Option String
  data_eta_by_integrand : List EtaByIntegrand
  data_density_by_integrand : List DensityByIntegrand
  students_dof : Option ℚ
  log_students_dof : Option ℚ
  exclude_data_for_param : Option (List ℤ)
  exclude_relative_risk : Bool
  country_covariate : List CovSpec
deriving DecidableEq, Repr

/-- Modelled from the spec: `make_integrand_map`
(`cascade_at.dismod.integrand_mappings`, not among the sources) maps GBD
measure ids to DisMod integrand names; a representative fixed mapping. -/
def integrandMap : List (ℤ × String) :=
  [(5, "prevalence"), (6, "incidence"), (7, "remission"), (9, "mtexcess"),
   (11, "relrisk"), (13, "mtwith"), (14, "mtall"), (15, "mtstandard"),
   (16, "mtspecific"), (41, "Sincidence"), (42, "Tincidence")]

/-- Lookup `self.integrand_map[mid]`: raises `KeyError` for an unknown measure id. -/
def integrandKey (mid : ℤ) : Except String String :=
  match List.find? (fun q => q.1 = mid) integrandMap with
  | some q => Except.ok q.2
  | none => Except.error "KeyError: integrand_map"

/-- A `defaultdict`: a default value plus explicit per-key overrides.
Lookup is total — a key without an override resolves to the default,
never an error. -/
structure Dmap (α : Type) where
  dflt : α
  overrides : List (String × α)
deriving DecidableEq, Repr

/-- Total lookup in a `defaultdict`. -/
def dmapGet {α : Type} (m : Dmap α) (k : String) : α :=
  match List.find? (fun p => p.1 = k) m.overrides with
  | some p => p.2
  | none => m.dflt

/-- Does the map carry an explicit override for `k`? -/
def dmapHasKey {α : Type} (m : Dmap α) (k : String) : Bool :=
  List.any m.overrides (fun p => p.1 = k)

/-- Assignment `m[k] = v`: add or replace an override. -/
def dmapSet {α : Type} (m : Dmap α) (k : String) (v : α) : Dmap α :=
  { m with overrides :=
      if List.any m.overrides (fun p => p.1 = k) then
        List.map (fun p => if p.1 = k then (k, v) else p) m.overrides
      else m.overrides ++ [(k, v)] }

/-- Lookup keyed by a data-frame cell: a non-string cell is not among the
string keys of the map, so it resolves to the default. -/
def dmapGetVal {α : Type} (m : Dmap α) (v : Val) : α :=
  match v with
  | Val.str s => dmapGet m s
  | _ => m.dflt

/-- The per-integrand override loop shared by the eta and density map
builders: `m[integrand_map[mid]] = v` for each configured integrand, a
`KeyError` for an unknown integrand id propagating. -/
def dmapOverrideFold {α : Type} : Dmap α → List (ℤ × α) → Except String (Dmap α)
  | m, [] => Except.ok m
  | m, (mid, v) :: rest =>
    match integrandKey mid with
    | Except.error err => Except.error err
    | Except.ok k => dmapOverrideFold (dmapSet m k v) rest

/-- Source `MeasurementInputs.data_eta_from_settings`: default eta is `NaN`
(modelled `none`) unless `settings.eta.data` is set and truthy, in which
case that value becomes the default; then per-integrand overrides keyed by
the integrand name. -/
def dataEtaFromSettings (s : Settings) : Except String (Dmap (Option ℚ)) :=
  let d0 : Option ℚ :=
    match s.eta_data with
    | some v => if v = 0 then none else some v
    | none => none
  dmapOverrideFold ⟨d0, []⟩
    (List.map (fun e => (e.integrand_measure_id, some e.value)) s.data_eta_by_integrand)

/-- Source `MeasurementInputs.density_from_settings`: default density is
`"gaussian"` unless `settings.model.data_density` is set and truthy; then
per-integrand overrides. -/
def densityFromSettings (s : Settings) : Except String (Dmap String) :=
  let d0 : String :=
    match s.model_data_density with
    | some v => if v = "" then "gaussian" else v
    | none => "gaussian"
  dmapOverrideFold ⟨d0, []⟩
    (List.map (fun e => (e.integrand_measure_id, e.value)) s.data_density_by_integrand)

/-- Source `MeasurementInputs.nu_from_settings`: default nu is `NaN` (`none`);
`"students"` and `"log_students"` are set from the settings. -/
def nuFromSettings (s : Settings) : Dmap (Option ℚ) :=
  dmapSet (dmapSet ⟨none, []⟩ "students" s.students_dof) "log_students" s.log_students_dof

/-- Source `MeasurementInputs.measures_to_exclude_from_settings`: names of the
excluded integrands (ids absent from the integrand map are skipped), plus
`"relrisk"` when the policy flag is on. -/
def measuresToExcludeFromSettings (s : Settings) : List String :=
  let base : List String :=
    match s.exclude_data_for_param with
    | some ms => List.filterMap
        (fun m => Option.map Prod.snd (List.find? (fun q => q.1 = m) integrandMap)) ms
    | none => []
  if s.exclude_relative_risk then base ++ ["relrisk"] else base

/-- The location DAG: parent id with its list of direct children. -/
abbrev Dag : Type := List (ℤ × List ℤ)

/-- Modelled from the spec (§6): the location DAG collaborator exposes child
lookup `successors(parent_id) -> set of location ids`. -/
def dagSuccessors (d : Dag) (p : ℤ) : List ℤ :=
  match List.find? (fun e => e.1 = p) d with
  | some e => e.2
  | none => []

/-- The attribute slots of a `MeasurementInputs` instance. `none` models a
slot still holding Python `None` (set by `__init__`, filled by
`get_raw_inputs` / `configure_inputs_for_dismod`). The raw-source objects
are modelled by the normalized frames their `configure_for_dismod` returns,
and the covariate series by typed records. -/
structure State where
  country_covariate_id : List ℤ
  data : Option Frame := none
  asdr : Option Frame := none
  csmr : Option Frame := none
  covariate_data : Option (List (ℤ × List CovRecord)) := none
  location_dag : Option Dag := none
  population : Option (List PopRecord) := none
  data_eta : Option (Dmap (Option ℚ)) := none
  density : Option (Dmap String) := none
  nu : Option (Dmap (Option ℚ)) := none
  measures_to_exclude : Option (List String) := none
  dismod_data : Option Frame := none
  country_covariate_data : Option (List (ℤ × List CovRecord)) := none
  covariate_specs : Option (List CovSpec) := none
deriving DecidableEq, Repr

/-- The state right after `__init__`: every raw and derived slot is `None`. -/
def initState (cids : List ℤ) : State :=
  { country_covariate_id := cids }

/-- Dereference an attribute: Python raises (`AttributeError` /
`TypeError`) when the slot still holds `None`. -/
def attr {α : Type} (o : Option α) (name : String) : Except String α :=
  match o with
  | some a => Except.ok a
  | none => Except.error ("AttributeError: NoneType " ++ name)

/-- Encode an optional rational as a data-frame cell (`NaN` for `none`). -/
def optQVal : Option ℚ → Val
  | none => Val.null
  | some q => Val.num q

/-- Modelled from the spec: `SEX_MAP`
(`cascade_at.inputs.utilities.gbd_ids`, not among the sources), the
model-native sex encoding: male 1 ↦ 0.5, female 2 ↦ -0.5, both 3 ↦ 0. -/
def SEX_MAP : List (ℤ × ℚ) := [(1, Rat.divInt 1 2), (2, Rat.divInt (-1) 2), (3, 0)]

/-- Pandas `Series.map(SEX_MAP)` on one cell: ids absent from the mapping (and
non-integer cells) become `NaN`. -/
def sexMapVal (v : Val) : Val :=
  match Val.toZ v with
  | some z =>
    match List.find? (fun p => p.1 = z) SEX_MAP with
    | some p => Val.num p.2
    | none => Val.null
  | none => Val.null

/-- Modelled from the spec (§6, glossary): the crosswalk adapter's
`configure_for_dismod(measures_to_exclude)` (class `CrosswalkVersion`, not
among the sources) returns the normalized rows with the excluded measures
marked as hold-outs (a hold-out is "a flag marking a row as excluded from
model fitting"). -/
def crosswalkConfigure (df : Frame) (mte : List String) : Frame :=
  List.map (fun r =>
    match getCol r "measure" with
    | Val.str s => if mte.contains s then setCol r "hold_out" (Val.num 1) else r
    | _ => r) df

/-- Pandas `pd.concat([...], axis=0)` of the three normalized sources, in source
order: crosswalk, ASDR, CSMR. -/
def concatSources (dataN asdrF csmrF : Frame) : Frame :=
  dataN ++ asdrF ++ csmrF

/-- Assignment `df[col] = df.measure.apply(f)`: one statistical-configuration column,
computed per row from that row's measure cell. -/
def applyStat (df : Frame) (col : String) (f : Val → Val) : Frame :=
  List.map (fun r => setCol r col (f (getCol r "measure"))) df

/-- The three statistical columns in source order: density, eta, nu. -/
def withStats (den : Dmap String) (eta nu : Dmap (Option ℚ)) (df : Frame) : Frame :=
  applyStat
    (applyStat
      (applyStat df "density" (fun v => Val.str (dmapGetVal den v)))
      "eta" (fun v => optQVal (dmapGetVal eta v)))
    "nu" (fun v => optQVal (dmapGetVal nu v))

/-- Source `MeasurementInputs.interpolate_country_covariate_values`: for each
country covariate, compute the interpolated column via the engine on the
current frame and assign it (`self.dismod_data[c.name] = ...`); a missing
covariate id raises `KeyError`, a `None` population raises on dereference. -/
def interpolateAll (ccd : List (ℤ × List CovRecord)) (popOpt : Option (List PopRecord)) :
    Frame → List CovSpec → Except String Frame
  | df, [] => Except.ok df
  | df, c :: rest =>
    if c.study_country = "country" then
      match List.find? (fun e => e.1 = c.covariate_id) ccd with
      | none => Except.error "KeyError: country_covariate_data"
      | some e =>
        match popOpt with
        | none => Except.error "AttributeError: NoneType population"
        | some pop =>
          interpolateAll ccd popOpt
            (List.zipWith (fun r v => setCol r c.name v) df
              (List.map Val.num
                (getInterpolatedCovariateValues (List.map toTarget df) e.2 pop)))
            rest
    else interpolateAll ccd popOpt df rest

/-- The trailing column assignments of `configure_inputs_for_dismod`, per
row and in source order: `s_sex` from the sex map, `s_one = 1`, and the
hold-out default 0 for rows whose hold-out cell is `NaN`. -/
def finalizeRow (r : RowA) : RowA :=
  let r1 := setCol r "s_sex" (sexMapVal (getCol r "sex_id"))
  let r2 := setCol r1 "s_one" (Val.int 1)
  if getCol r2 "hold_out" = Val.null then setCol r2 "hold_out" (Val.num 0) else r2

def finalizeFrame (df : Frame) : Frame :=
  List.map finalizeRow df

/-- Source `MeasurementInputs.configure_inputs_for_dismod`, in source order:
build the statistical maps and exclusions, concatenate the three normalized
sources, join density/eta/nu by measure, reset the index (a no-op in the
positional model), build the configured covariate data and specs,
interpolate every country covariate, drop the raw `age_group_id` column,
and append the derived `s_sex` / `s_one` / hold-out columns. -/
def configureInputsForDismod (st : State) (s : Settings) : Except String State :=
  match dataEtaFromSettings s with
  | Except.error e => Except.error e
  | Except.ok etaM =>
    match densityFromSettings s with
    | Except.error e => Except.error e
    | Except.ok denM =>
      match attr st.data "data" with
      | Except.error e => Except.error e
      | Except.ok dataF =>
        match attr st.asdr "asdr" with
        | Except.error e => Except.error e
        | Except.ok asdrF =>
          match attr st.csmr "csmr" with
          | Except.error e => Except.error e
          | Except.ok csmrF =>
            match attr st.covariate_data "covariate_data" with
            | Except.error e => Except.error e
            | Except.ok covd =>
              match interpolateAll covd st.population
                  (withStats denM etaM (nuFromSettings s)
                    (concatSources
                      (crosswalkConfigure dataF (measuresToExcludeFromSettings s))
                      asdrF csmrF))
                  s.country_covariate with
              | Except.error e => Except.error e
              | Except.ok df2 =>
                match dropColE df2 "age_group_id" with
                | Except.error e => Except.error e
                | Except.ok df3 =>
                  Except.ok { st with
                    data_eta := some etaM, density := some denM,
                    nu := some (nuFromSettings s),
                    measures_to_exclude := some (measuresToExcludeFromSettings s),
                    country_covariate_data := some covd,
                    covariate_specs := some s.country_covariate,
                    dismod_data := some (finalizeFrame df3) }

/-- One row of the result of `get_covariate_reference_max_diff`:
covariate id, reference value, and max absolute difference
(`none` models the `NaN` that `np.max` yields over an empty series). -/
structure RefRow where
  real_covariate_id : ℤ
  reference : ℚ
  max_difference : Option ℚ
deriving DecidableEq, Repr

/-- The reference-value interpolation of `get_covariate_reference_max_diff`:
the engine applied to a single synthetic target row — parent location,
sex 3 ("both"), the full observed age/time window — against a
parent-restricted covariate series and parent-restricted population.
`none` bounds stand for `NaN` extremes of an empty assembled dataset, whose
synthetic row intersects nothing, so the engine degrades to 0. -/
def referenceValue (bounds : Option (ℚ × ℚ × ℚ × ℚ)) (parentDf : List CovRecord)
    (popP : List PopRecord) (p : ℤ) : ℚ :=
  match bounds with
  | some (aLo, aHi, tLo, tHi) =>
    List.headD (getInterpolatedCovariateValues
      [some ⟨p, 3, aLo, aHi, tLo, tHi⟩] parentDf popP) 0
  | none => 0

/-- The loop body of `get_covariate_reference_max_diff` for one covariate
id. An empty covariate series takes the `reference_value = 0.0` branch, but
its result row is then built from all scalar values, which `pd.DataFrame`
rejects with a `ValueError` (and the max over its empty series is `NaN`
besides); a non-empty series interpolates the reference and takes
`np.max(np.abs(...))` over the child-and-parent covariate values, which is
`NaN` (`none`) when that restriction is empty. -/
def refRowFor (children : List ℤ) (bounds : Option (ℚ × ℚ × ℚ × ℚ))
    (popOpt : Option (List PopRecord)) (ccdOpt : Option (List (ℤ × List CovRecord)))
    (p : ℤ) (cid : ℤ) : Except String RefRow :=
  match attr ccdOpt "country_covariate_data" with
  | Except.error e => Except.error e
  | Except.ok ccd =>
    match List.find? (fun e => e.1 = cid) ccd with
    | none => Except.error "KeyError: country_covariate_data"
    | some en =>
      let cov := en.2
      let parentDf := List.filter (fun r => decide (r.location_id = p)) cov
      let childDf := List.filter (fun r => children.contains r.location_id) cov
      let allLoc := childDf ++ parentDf
      if cov.isEmpty then
        Except.error "ValueError: If using all scalar values, you must pass an index"
      else
        match attr popOpt "population" with
        | Except.error e => Except.error e
        | Except.ok popRaw =>
          let popP := List.filter (fun q => decide (q.location_id = p)) popRaw
          let refv := referenceValue bounds parentDf popP p
          Except.ok ⟨cid, refv, qmax? (List.map (fun r => qabs (qsub r.mean_value refv)) allLoc)⟩

/-- The loop of `get_covariate_reference_max_diff`: one appended result row
per covariate id, in list order; an exception propagates. -/
def refRows (children : List ℤ) (bounds : Option (ℚ × ℚ × ℚ × ℚ))
    (popOpt : Option (List PopRecord)) (ccdOpt : Option (List (ℤ × List CovRecord)))
    (p : ℤ) : List ℤ → Except String (List RefRow)
  | [] => Except.ok []
  | cid :: rest =>
    match refRowFor children bounds popOpt ccdOpt p cid with
    | Except.error e => Except.error e
    | Except.ok r =>
      match refRows children bounds popOpt ccdOpt p rest with
      | Except.error e => Except.error e
      | Except.ok rs => Except.ok (r :: rs)

/-- The observed age/time extremes of the assembled dataset
(`dismod_data.age_lower.min()` etc.); `none` when any of the four is `NaN`
(an empty frame, or a column with no numeric cell). -/
def observedBounds (ddf : Frame) : Option (ℚ × ℚ × ℚ × ℚ) :=
  match colMinQ ddf "age_lower", colMaxQ ddf "age_upper",
      colMinQ ddf "time_lower", colMaxQ ddf "time_upper" with
  | some a, some b, some c, some d => some (a, b, c, d)
  | _, _, _, _ => none

/-- Source `MeasurementInputs.get_covariate_reference_max_diff(parent_location_id)`:
reads the observed age/time extremes of the assembled dataset and the direct
children of the parent location, then produces one result row per covariate
id in `country_covariate_id`. -/
def getCovariateReferenceMaxDiff (st : State) (p : ℤ) : Except String (List RefRow) :=
  match attr st.dismod_data "dismod_data" with
  | Except.error e => Except.error e
  | Except.ok ddf =>
    match attr st.location_dag "location_dag" with
    | Except.error e => Except.error e
    | Except.ok dag =>
      refRows (dagSuccessors dag p) (observedBounds ddf)
        st.population st.country_covariate_data p st.country_covariate_id

/-- The method together with its effect on the instance: the source assigns
to no attribute of `self`, so the state component is returned unchanged. -/
def getCovariateReferenceMaxDiffM (st : State) (p : ℤ) :
    Except String (List RefRow) × State :=
  (getCovariateReferenceMaxDiff st p, st)

/-! ### Concrete scenarios -/

/-- A normalized observation row as the source adapters produce them
(spec §6), with the raw `age_group_id` still present. -/
def demoRow (loc sex ag : ℤ) (aLo aHi tLo tHi : ℚ) (meas : String) (hold : Val) : RowA :=
  [("location_id", Val.int loc), ("sex_id", Val.int sex), ("age_group_id", Val.int ag),
   ("age_lower", Val.num aLo), ("age_upper", Val.num aHi),
   ("time_lower", Val.num tLo), ("time_upper", Val.num tHi),
   ("measure", Val.str meas), ("meas_value", Val.num 7), ("hold_out", hold)]

/-- Settings with every optional field unset and one country covariate. -/
def demoSettings : Settings :=
  { eta_data := none, model_data_density := none,
    data_eta_by_integrand := [], data_density_by_integrand := [],
    students_dof := some 5, log_students_dof := none,
    exclude_data_for_param := none, exclude_relative_risk := false,
    country_covariate := [⟨1, "c_income", "country"⟩] }

def demoDataF : Frame := [demoRow 70 2 8 0 10 1990 1995 "prevalence" Val.null]
def demoAsdrF : Frame := [demoRow 70 2 8 0 10 1990 1995 "mtall" (Val.num 0)]
def demoCsmrF : Frame := [demoRow 70 1 8 0 10 1990 1995 "mtspecific" (Val.num 0)]

/-- A state as left by a completed `get_raw_inputs`. -/
def demoState : State :=
  { country_covariate_id := [1],
    data := some demoDataF,
    asdr := some demoAsdrF,
    csmr := some demoCsmrF,
    covariate_data := some [(1, [⟨70, 2, 0, 10, 1992, 2⟩])],
    location_dag := some [(70, [71])],
    population := some [⟨70, 3, 0, 10, 1992, 100⟩] }

/-- The state after a successful `configure_inputs_for_dismod`. -/
def demoConfigured : State :=
  (configureInputsForDismod demoState demoSettings).toOption.getD (initState [])

/-- The assembled dataset of the demo scenario. -/
def demoFinal : Frame :=
  (demoConfigured.dismod_data).getD []

/-- The demo covariate data (one covariate, one record at location 70). -/
def demoCovd : List (ℤ × List CovRecord) := [(1, [⟨70, 2, 0, 10, 1992, 2⟩])]

/-- The demo frame after interpolation of all covariates (before the
`age_group_id` drop). -/
def demoDf2 : Frame :=
  (interpolateAll demoCovd demoState.population
    (withStats ⟨"gaussian", []⟩ ⟨none, []⟩ (nuFromSettings demoSettings)
      (concatSources
        (crosswalkConfigure demoDataF (measuresToExcludeFromSettings demoSettings))
        demoAsdrF demoCsmrF))
    demoSettings.country_covariate).toOption.getD []

/-- The demo frame after the `age_group_id` drop. -/
def demoDf3 : Frame := (dropColE demoDf2 "age_group_id").toOption.getD []

/-- A configured state whose single covariate has records, but none at
parent location 70 or at its direct children. -/
def cexNoParentDataState : State :=
  { country_covariate_id := [1],
    dismod_data := some [demoRow 70 2 8 0 10 1990 1995 "prevalence" (Val.num 0)],
    location_dag := some [(70, [71])],
    population := some [⟨70, 3, 0, 10, 1992, 100⟩],
    country_covariate_data := some [(1, [⟨99, 3, 0, 1, 1990, 5⟩])] }

/-- A configured state whose covariate id 12 has an empty covariate series. -/
def cexEmptyCovState : State :=
  { country_covariate_id := [12],
    dismod_data := some [demoRow 70 2 8 0 10 1990 1995 "prevalence" (Val.num 0)],
    location_dag := some [(70, [71])],
    population := some [],
    country_covariate_data := some [(12, [])] }

/-- Settings whose global `eta.data` field is set (and truthy) while no
per-measure eta is configured. -/
def cexGlobalEtaSettings : Settings :=
  { eta_data := some 1, model_data_density := none,
    data_eta_by_integrand := [], data_density_by_integrand := [],
    students_dof := none, log_students_dof := none,
    exclude_data_for_param := none, exclude_relative_risk := false,
    country_covariate := [] }

/-- Per-row statistical-column correctness: density/eta/nu each equal the
corresponding map applied to the row's measure cell. -/
def statRowOk (den : Dmap String) (eta nu : Dmap (Option ℚ)) (r : RowA) : Bool :=
  decide (getCol r "density" = Val.str (dmapGetVal den (getCol r "measure"))) &&
  decide (getCol r "eta" = optQVal (dmapGetVal eta (getCol r "measure"))) &&
  decide (getCol r "nu" = optQVal (dmapGetVal nu (getCol r "measure")))

/-- Per-row derived-column correctness: `s_one = 1`, `s_sex` is the sex map
of the row's sex id, and the hold-out cell is non-null. -/
def derivedRowOk (r : RowA) : Bool :=
  decide (getCol r "s_one" = Val.int 1) &&
  decide (getCol r "s_sex" = sexMapVal (getCol r "sex_id")) &&
  !(decide (getCol r "hold_out" = Val.null))

/-- A returned `max_difference` is either `NaN` or non-negative. -/
def mdOk (r : RefRow) : Bool :=
  match r.max_difference with
  | none => true
  | some q => decide (0 ≤ q)

/-- Does the (configured) covariate data carry a non-empty series for the
given covariate id? -/
def covSeriesOk (ccd : List (ℤ × List CovRecord)) (cid : ℤ) : Bool :=
  match List.find? (fun e => e.1 = cid) ccd with
  | some en => !en.2.isEmpty
  | none => false

/-- Did the call return normally (no exception)? -/
def exceptIsOk {ε α : Type} : Except ε α → Bool
  | Except.ok _ => true
  | Except.error _ => false

/-! ## Row-level lemmas -/

theorem getCol_cons (p : String × Val) (r : RowA) (c : String) :
    getCol (p :: r) c = if p.1 = c then p.2 else getCol r c := by
  by_cases h : p.1 = c <;> simp [getCol, List.find?, h]

theorem setCol_cons_of_ne {p : String × Val} {c : String} (h : ¬ p.1 = c)
    (r : RowA) (v : Val) : setCol (p :: r) c v = p :: setCol r c v := by
  by_cases hr : colHas r c
  · have h1 : colHas (p :: r) c = true := by simp [colHas] at hr ⊢; simpa using Or.inr hr
    simp only [setCol, h1, hr, if_true]
    simp [List.map_cons, h]
  · have hr' : colHas r c = false := by rwa [Bool.not_eq_true] at hr
    have h1 : colHas (p :: r) c = false := by
      simp only [colHas, List.any_cons] at hr' ⊢
      simp [h, hr']
    rw [Bool.not_eq_true] at hr
    simp only [setCol, h1, hr, Bool.false_eq_true, if_false]
    simp

theorem getCol_mapReplace {c c' : String} (h : ¬ c = c') (v : Val) (r : RowA) :
    getCol (List.map (fun q => if q.1 = c' then (c', v) else q) r) c = getCol r c := by
  induction r with
  | nil => rfl
  | cons p r ih =>
    by_cases hp : p.1 = c'
    · have hpc : ¬ p.1 = c := by rw [hp]; exact fun hc => h hc.symm
      have hc'c : ¬ c' = c := fun hc => h hc.symm
      simp [hp, getCol_cons, hpc, hc'c, ih]
    · simp only [List.map_cons, if_neg hp, getCol_cons, ih]

theorem getCol_setCol_self (r : RowA) (c : String) (v : Val) :
    getCol (setCol r c v) c = v := by
  induction r with
  | nil => simp [setCol, colHas, getCol, List.find?]
  | cons p r ih =>
    by_cases h : p.1 = c
    · simp [setCol, colHas, h, getCol_cons]
    · rw [setCol_cons_of_ne h, getCol_cons, if_neg h]
      exact ih

theorem getCol_setCol_ne {c c' : String} (h : ¬ c = c') (r : RowA) (v : Val) :
    getCol (setCol r c' v) c = getCol r c := by
  induction r with
  | nil =>
    have hc'c : ¬ c' = c := fun hc => h hc.symm
    simp [setCol, colHas, getCol, List.find?, hc'c]
  | cons p r ih =>
    by_cases hp : p.1 = c'
    · have hpc : ¬ p.1 = c := by rw [hp]; exact fun hc => h hc.symm
      have hc'c : ¬ c' = c := fun hc => h hc.symm
      simp [setCol, colHas, hp, getCol_cons, hpc, hc'c, getCol_mapReplace h]
    · rw [setCol_cons_of_ne hp, getCol_cons, getCol_cons]
      by_cases hpc : p.1 = c
      · simp [hpc]
      · simp [hpc, ih]

theorem colHas_mapReplace (c c' : String) (v : Val) (r : RowA) :
    colHas (List.map (fun q => if q.1 = c' then (c', v) else q) r) c = colHas r c := by
  have hfun : ((fun p : String × Val => decide (p.1 = c)) ∘
      (fun q : String × Val => if q.1 = c' then (c', v) else q)) =
      (fun q : String × Val => decide (q.1 = c)) := by
    funext q
    by_cases hq : q.1 = c' <;> simp [hq]
  simp [colHas, List.any_map, hfun]

theorem colHas_setCol_mono {r : RowA} {c : String} (h : colHas r c = true)
    (c' : String) (v : Val) : colHas (setCol r c' v) c = true := by
  by_cases hr : colHas r c'
  · simpa only [setCol, hr, if_true, colHas_mapReplace] using h
  · have hr' : colHas r c' = false := by simpa using hr
    simp only [setCol, hr', Bool.false_eq_true, if_false]
    simp only [colHas, List.any_append] at h ⊢
    simp [h]

theorem colHas_setCol_ne {c c' : String} (h : ¬ c = c') (r : RowA) (v : Val) :
    colHas (setCol r c' v) c = colHas r c := by
  by_cases hr : colHas r c'
  · simp only [setCol, hr, if_true, colHas_mapReplace]
  · have hr' : colHas r c' = false := by simpa using hr
    have hc'c : ¬ c' = c := fun hc => h hc.symm
    simp only [setCol, hr', Bool.false_eq_true, if_false]
    simp [colHas, List.any_append, hc'c]

theorem colHas_dropKey_self (r : RowA) (c : String) :
    colHas (dropKey r c) c = false := by
  rw [colHas, List.any_eq_false]
  intro x hx
  rw [dropKey, List.mem_filter] at hx
  simpa using hx.2

theorem getCol_dropKey_ne {c c' : String} (h : ¬ c = c') (r : RowA) :
    getCol (dropKey r c') c = getCol r c := by
  induction r with
  | nil => rfl
  | cons p r ih =>
    by_cases hp : p.1 = c'
    · have hpc : ¬ p.1 = c := by rw [hp]; exact fun hc => h hc.symm
      have hd : dropKey (p :: r) c' = dropKey r c' := by
        simp [dropKey, List.filter_cons, hp]
      rw [hd, ih, getCol_cons, if_neg hpc]
    · have hd : dropKey (p :: r) c' = p :: dropKey r c' := by
        simp [dropKey, List.filter_cons, hp]
      rw [hd, getCol_cons, getCol_cons, ih]

/-! ## List and map helper lemmas -/

theorem qabs_nonneg (x : ℚ) : 0 ≤ qabs x := by
  rw [qabs]
  split
  · rename_i h
    have hx : ¬ 0 ≤ x := fun hx0 => absurd (Rat.num_nonneg.mpr hx0) (not_le.mpr h)
    have hx' : x < 0 := lt_of_not_le hx
    linarith
  · rename_i h
    push_neg at h
    exact Rat.num_nonneg.mp h

theorem qabs_eq_abs (x : ℚ) : qabs x = |x| := by
  rw [qabs]
  split
  · rename_i h
    have hx : ¬ 0 ≤ x := fun hx0 => absurd (Rat.num_nonneg.mpr hx0) (not_le.mpr h)
    rw [abs_of_neg (lt_of_not_le hx)]
  · rename_i h
    push_neg at h
    rw [abs_of_nonneg (Rat.num_nonneg.mp h)]

theorem rat_mul_den (x : ℚ) : x * (x.den : ℚ) = (x.num : ℚ) := by
  have hxd : ((x.den : ℚ)) ≠ 0 := by exact_mod_cast x.den_nz
  exact (eq_div_iff hxd).mp (Rat.num_div_den x).symm

theorem qmul_eq_mul (x y : ℚ) : qmul x y = x * y := by
  have hxd : ((x.den : ℚ)) ≠ 0 := by exact_mod_cast x.den_nz
  have hyd : ((y.den : ℚ)) ≠ 0 := by exact_mod_cast y.den_nz
  rw [qmul, Rat.divInt_eq_div]
  push_cast
  rw [div_eq_iff (mul_ne_zero hxd hyd)]
  rw [← rat_mul_den x, ← rat_mul_den y]
  ring

theorem qadd_eq_add (x y : ℚ) : qadd x y = x + y := by
  have hxd : ((x.den : ℚ)) ≠ 0 := by exact_mod_cast x.den_nz
  have hyd : ((y.den : ℚ)) ≠ 0 := by exact_mod_cast y.den_nz
  rw [qadd, Rat.divInt_eq_div]
  push_cast
  rw [div_eq_iff (mul_ne_zero hxd hyd)]
  rw [← rat_mul_den x, ← rat_mul_den y]
  ring

theorem qsub_eq_sub (x y : ℚ) : qsub x y = x - y := by
  have hxd : ((x.den : ℚ)) ≠ 0 := by exact_mod_cast x.den_nz
  have hyd : ((y.den : ℚ)) ≠ 0 := by exact_mod_cast y.den_nz
  rw [qsub, Rat.divInt_eq_div]
  push_cast
  rw [div_eq_iff (mul_ne_zero hxd hyd)]
  rw [← rat_mul_den x, ← rat_mul_den y]
  ring

theorem qsum_eq_sum (l : List ℚ) : qsum l = l.sum := by
  induction l with
  | nil => rfl
  | cons x xs ih =>
    rw [qsum, List.foldr_cons, List.sum_cons]
    rw [qsum] at ih
    rw [ih, qadd_eq_add]

theorem qdiv_eq_div (x y : ℚ) : qdiv x y = x / y := by
  rcases eq_or_ne y 0 with rfl | hy
  · simp [qdiv]
  · have hxd : ((x.den : ℚ)) ≠ 0 := by exact_mod_cast x.den_nz
    have hyd : ((y.den : ℚ)) ≠ 0 := by exact_mod_cast y.den_nz
    have hyn : ((y.num : ℚ)) ≠ 0 := by exact_mod_cast Rat.num_ne_zero.mpr hy
    rw [qdiv, Rat.divInt_eq_div]
    push_cast
    rw [div_eq_div_iff (mul_ne_zero hxd hyn) hy]
    have hx1 : x * (x.den : ℚ) = (x.num : ℚ) := (eq_div_iff hxd).mp (Rat.num_div_den x).symm
    have hy1 : y * (y.den : ℚ) = (y.num : ℚ) := (eq_div_iff hyd).mp (Rat.num_div_den y).symm
    calc (x.num : ℚ) * (y.den : ℚ) * y = (x.num : ℚ) * (y * (y.den : ℚ)) := by ring
      _ = (x.num : ℚ) * (y.num : ℚ) := by rw [hy1]
      _ = (x * (x.den : ℚ)) * (y.num : ℚ) := by rw [hx1]
      _ = x * ((x.den : ℚ) * (y.num : ℚ)) := by ring

theorem qmax?_nonneg {l : List ℚ} (hl : ∀ x ∈ l, 0 ≤ x) :
    ∀ q, qmax? l = some q → 0 ≤ q := by
  induction l with
  | nil => intro q h; simp [qmax?] at h
  | cons x xs ih =>
    intro q h
    rw [qmax?] at h
    cases hx : qmax? xs with
    | none =>
      rw [hx] at h
      have : q = x := by injection h with h'; exact h'.symm
      rw [this]
      exact hl x (List.mem_cons_self x xs)
    | some y =>
      rw [hx] at h
      have hq : q = qmax2 x y := by injection h with h'; exact h'.symm
      have hx0 : 0 ≤ x := hl x (List.mem_cons_self x xs)
      rw [hq, qmax2]
      split
      · exact le_trans hx0 (by assumption)
      · exact hx0

theorem attr_ok_iff {α : Type} (o : Option α) (n : String) (a : α) :
    attr o n = Except.ok a ↔ o = some a := by
  cases o <;> simp [attr]

theorem mem_zipWith_setCol {n : String} {x : RowA} :
    ∀ {df : Frame} {vs : List Val},
      x ∈ List.zipWith (fun r v => setCol r n v) df vs →
      ∃ r, r ∈ df ∧ ∃ v, x = setCol r n v := by
  intro df
  induction df with
  | nil => intro vs hx; simp [List.zipWith] at hx
  | cons r df ih =>
    intro vs hx
    cases vs with
    | nil => simp [List.zipWith] at hx
    | cons v vs =>
      rw [List.zipWith_cons_cons, List.mem_cons] at hx
      rcases hx with hx | hx
      · exact ⟨r, List.mem_cons_self r df, v, hx⟩
      · rcases ih hx with ⟨r', hr', v', hv'⟩
        exact ⟨r', List.mem_cons_of_mem r hr', v', hv'⟩

theorem interpolateAll_ok_length {ccd : List (ℤ × List CovRecord)}
    {popOpt : Option (List PopRecord)} :
    ∀ (specs : List CovSpec) (df df' : Frame),
      interpolateAll ccd popOpt df specs = Except.ok df' → df'.length = df.length := by
  intro specs
  induction specs with
  | nil =>
    intro df df' h
    rw [interpolateAll] at h
    injection h with h'
    rw [h']
  | cons c rest ih =>
    intro df df' h
    rw [interpolateAll] at h
    split at h
    · split at h
      · cases h
      · split at h
        · cases h
        · have hlen := ih _ _ h
          rw [hlen]
          simp [getInterpolatedCovariateValues]
    · exact ih _ _ h

theorem interpolateAll_preserves {ccd : List (ℤ × List CovRecord)}
    {popOpt : Option (List PopRecord)} (Q : RowA → Prop) :
    ∀ (specs : List CovSpec) (df df' : Frame),
      (∀ c ∈ specs, ∀ (r : RowA) (v : Val), Q r → Q (setCol r c.name v)) →
      interpolateAll ccd popOpt df specs = Except.ok df' →
      (∀ r ∈ df, Q r) → ∀ x ∈ df', Q x := by
  intro specs
  induction specs with
  | nil =>
    intro df df' _ h hdf
    rw [interpolateAll] at h
    injection h with h'
    rw [← h']
    exact hdf
  | cons c rest ih =>
    intro df df' hQ h hdf
    rw [interpolateAll] at h
    split at h
    · split at h
      · cases h
      · split at h
        · cases h
        · refine ih _ _ (fun c' hc' => hQ c' (List.mem_cons_of_mem c hc')) h ?_
          intro x hx
          rcases mem_zipWith_setCol hx with ⟨r, hr, v, hv⟩
          rw [hv]
          exact hQ c (List.mem_cons_self c rest) r v (hdf r hr)
    · exact ih _ _ (fun c' hc' => hQ c' (List.mem_cons_of_mem c hc')) h hdf

theorem dmapOverrideFold_dflt {α : Type} :
    ∀ (l : List (ℤ × α)) (m m' : Dmap α),
      dmapOverrideFold m l = Except.ok m' → m'.dflt = m.dflt := by
  intro l
  induction l with
  | nil =>
    intro m m' h
    rw [dmapOverrideFold] at h
    injection h with h'
    rw [h']
  | cons e rest ih =>
    intro m m' h
    obtain ⟨mid, v⟩ := e
    rw [dmapOverrideFold] at h
    split at h
    · cases h
    · have hd := ih _ _ h
      simpa [dmapSet] using hd

theorem dmapGet_of_no_override {α : Type} (m : Dmap α) (k : String)
    (h : dmapHasKey m k = false) : dmapGet m k = m.dflt := by
  rw [dmapGet]
  cases hf : List.find? (fun p => p.1 = k) m.overrides with
  | none => rfl
  | some p =>
    have hp := List.find?_some hf
    have hmem := List.mem_of_find?_eq_some hf
    rw [dmapHasKey, List.any_eq_false] at h
    exact absurd hp (by simpa using h p hmem)

theorem finalizeRow_s_one (r : RowA) : getCol (finalizeRow r) "s_one" = Val.int 1 := by
  rw [finalizeRow]
  by_cases h : getCol (setCol (setCol r "s_sex" (sexMapVal (getCol r "sex_id")))
      "s_one" (Val.int 1)) "hold_out" = Val.null
  · simp only [h, if_pos, if_true]
    rw [getCol_setCol_ne (by decide), getCol_setCol_self]
  · simp only [if_neg h]
    rw [getCol_setCol_self]

theorem finalizeRow_sex_id (r : RowA) :
    getCol (finalizeRow r) "sex_id" = getCol r "sex_id" := by
  rw [finalizeRow]
  by_cases h : getCol (setCol (setCol r "s_sex" (sexMapVal (getCol r "sex_id")))
      "s_one" (Val.int 1)) "hold_out" = Val.null
  · simp only [h, if_pos, if_true]
    rw [getCol_setCol_ne (by decide), getCol_setCol_ne (by decide),
      getCol_setCol_ne (by decide)]
  · simp only [if_neg h]
    rw [getCol_setCol_ne (by decide), getCol_setCol_ne (by decide)]

theorem finalizeRow_s_sex (r : RowA) :
    getCol (finalizeRow r) "s_sex" = sexMapVal (getCol r "sex_id") := by
  rw [finalizeRow]
  by_cases h : getCol (setCol (setCol r "s_sex" (sexMapVal (getCol r "sex_id")))
      "s_one" (Val.int 1)) "hold_out" = Val.null
  · simp only [h, if_pos, if_true]
    rw [getCol_setCol_ne (by decide), getCol_setCol_ne (by decide), getCol_setCol_self]
  · simp only [if_neg h]
    rw [getCol_setCol_ne (by decide), getCol_setCol_self]

theorem finalizeRow_hold_out_ne_null (r : RowA) :
    ¬ getCol (finalizeRow r) "hold_out" = Val.null := by
  rw [finalizeRow]
  by_cases h : getCol (setCol (setCol r "s_sex" (sexMapVal (getCol r "sex_id")))
      "s_one" (Val.int 1)) "hold_out" = Val.null
  · simp only [h, if_pos, if_true]
    rw [getCol_setCol_self]
    intro hc
    cases hc
  · simp only [if_neg h]
    exact h

theorem finalizeRow_hold_out_default (r : RowA)
    (h : getCol r "hold_out" = Val.null) :
    getCol (finalizeRow r) "hold_out" = Val.num 0 := by
  rw [finalizeRow]
  have h2 : getCol (setCol (setCol r "s_sex" (sexMapVal (getCol r "sex_id")))
      "s_one" (Val.int 1)) "hold_out" = Val.null := by
    rw [getCol_setCol_ne (by decide), getCol_setCol_ne (by decide)]
    exact h
  simp only [h2, if_pos, if_true]
  rw [getCol_setCol_self]

/-! ## Pipeline decomposition lemmas -/

theorem dropColE_ok {f f' : Frame} {c : String} (h : dropColE f c = Except.ok f') :
    frameHasCol f c = true ∧ f' = List.map (fun r => dropKey r c) f := by
  rw [dropColE] at h
  split at h
  · injection h with h'
    exact ⟨by assumption, h'.symm⟩
  · cases h

theorem configure_ok_decomp {st : State} {s : Settings} {st' : State}
    (h : configureInputsForDismod st s = Except.ok st') :
    ∃ etaM denM dataF asdrF csmrF covd df2 df3,
      dataEtaFromSettings s = Except.ok etaM ∧
      densityFromSettings s = Except.ok denM ∧
      st.data = some dataF ∧ st.asdr = some asdrF ∧ st.csmr = some csmrF ∧
      st.covariate_data = some covd ∧
      interpolateAll covd st.population
        (withStats denM etaM (nuFromSettings s)
          (concatSources (crosswalkConfigure dataF (measuresToExcludeFromSettings s))
            asdrF csmrF))
        s.country_covariate = Except.ok df2 ∧
      dropColE df2 "age_group_id" = Except.ok df3 ∧
      st' = { st with
        data_eta := some etaM, density := some denM, nu := some (nuFromSettings s),
        measures_to_exclude := some (measuresToExcludeFromSettings s),
        country_covariate_data := some covd, covariate_specs := some s.country_covariate,
        dismod_data := some (finalizeFrame df3) } := by
  rw [configureInputsForDismod] at h
  split at h
  · cases h
  rename_i etaM heta
  split at h
  · cases h
  rename_i denM hden
  split at h
  · cases h
  rename_i dataF hdata
  split at h
  · cases h
  rename_i asdrF hasdr
  split at h
  · cases h
  rename_i csmrF hcsmr
  split at h
  · cases h
  rename_i covd hcovd
  split at h
  · cases h
  rename_i df2 hdf2
  split at h
  · cases h
  rename_i df3 hdf3
  injection h with h'
  exact ⟨etaM, denM, dataF, asdrF, csmrF, covd, df2, df3, heta, hden,
    (attr_ok_iff _ _ _).mp hdata, (attr_ok_iff _ _ _).mp hasdr,
    (attr_ok_iff _ _ _).mp hcsmr, (attr_ok_iff _ _ _).mp hcovd,
    hdf2, hdf3, h'.symm⟩

theorem refRowFor_reference {children : List ℤ} {bounds : Option (ℚ × ℚ × ℚ × ℚ)}
    {pop : List PopRecord} {ccd : List (ℤ × List CovRecord)} {p cid : ℤ}
    {en : ℤ × List CovRecord}
    (hf : List.find? (fun e => e.1 = cid) ccd = some en)
    (hne : en.2.isEmpty = false) :
    refRowFor children bounds (some pop) (some ccd) p cid =
      Except.ok ⟨cid,
        referenceValue bounds (List.filter (fun r => decide (r.location_id = p)) en.2)
          (List.filter (fun q => decide (q.location_id = p)) pop) p,
        qmax? (List.map (fun r => qabs (qsub r.mean_value
            (referenceValue bounds (List.filter (fun r => decide (r.location_id = p)) en.2)
              (List.filter (fun q => decide (q.location_id = p)) pop) p)))
          (List.filter (fun r => children.contains r.location_id) en.2 ++
            List.filter (fun r => decide (r.location_id = p)) en.2))⟩ := by
  rw [refRowFor]
  simp only [attr]
  rw [hf]
  simp [hne]

theorem mdOk_of_qmax {cid : ℤ} {refv : ℚ} {allLoc : List CovRecord} :
    mdOk ⟨cid, refv, qmax? (List.map (fun r => qabs (qsub r.mean_value refv)) allLoc)⟩ = true := by
  rw [mdOk]
  cases hq : qmax? (List.map (fun r => qabs (qsub r.mean_value refv)) allLoc) with
  | none => rfl
  | some q =>
    have hnn : 0 ≤ q := by
      refine qmax?_nonneg ?_ q hq
      intro x hx
      rcases List.mem_map.mp hx with ⟨r, _, rfl⟩
      exact qabs_nonneg _
    simp [hnn]

theorem refRowFor_ok_spec {children : List ℤ} {bounds : Option (ℚ × ℚ × ℚ × ℚ)}
    {pop : List PopRecord} {ccd : List (ℤ × List CovRecord)} {p cid : ℤ}
    (h : covSeriesOk ccd cid = true) :
    ∃ r, refRowFor children bounds (some pop) (some ccd) p cid = Except.ok r ∧
      r.real_covariate_id = cid ∧ mdOk r = true := by
  rw [covSeriesOk] at h
  cases hf : List.find? (fun e => e.1 = cid) ccd with
  | none => rw [hf] at h; cases h
  | some en =>
    rw [hf] at h
    have hne : en.2.isEmpty = false := by simpa using h
    exact ⟨_, refRowFor_reference hf hne, rfl, mdOk_of_qmax⟩

theorem refRows_spec {children : List ℤ} {bounds : Option (ℚ × ℚ × ℚ × ℚ)}
    {pop : List PopRecord} {ccd : List (ℤ × List CovRecord)} {p : ℤ} :
    ∀ (cids : List ℤ) (rows : List RefRow),
      List.all cids (covSeriesOk ccd) = true →
      refRows children bounds (some pop) (some ccd) p cids = Except.ok rows →
      List.map RefRow.real_covariate_id rows = cids ∧ List.all rows mdOk = true := by
  intro cids
  induction cids with
  | nil =>
    intro rows _ h
    rw [refRows] at h
    injection h with h'
    rw [← h']
    exact ⟨rfl, rfl⟩
  | cons cid rest ih =>
    intro rows hall h
    rw [List.all_cons, Bool.and_eq_true] at hall
    rcases @refRowFor_ok_spec children bounds pop ccd p cid hall.1 with ⟨r, hr, hrid, hmd⟩
    rw [refRows, hr] at h
    cases hrest : refRows children bounds (some pop) (some ccd) p rest with
    | error e => rw [hrest] at h; cases h
    | ok rs =>
      rw [hrest] at h
      injection h with h'
      rcases ih rs hall.2 hrest with ⟨hmap, hok⟩
      rw [← h']
      refine ⟨?_, ?_⟩
      · rw [List.map_cons, hmap, hrid]
      · rw [List.all_cons, Bool.and_eq_true]
        exact ⟨hmd, hok⟩

theorem dataEtaFromSettings_dflt {s : Settings} {etaM : Dmap (Option ℚ)}
    (heta : dataEtaFromSettings s = Except.ok etaM) :
    etaM.dflt = (match s.eta_data with
      | some v => if v = 0 then none else some v
      | none => none) := by
  simp only [dataEtaFromSettings] at heta
  exact dmapOverrideFold_dflt _ _ _ heta

theorem densityFromSettings_dflt {s : Settings} {denM : Dmap String}
    (hden : densityFromSettings s = Except.ok denM) :
    denM.dflt = (match s.model_data_density with
      | some v => if v = "" then "gaussian" else v
      | none => "gaussian") := by
  simp only [densityFromSettings] at hden
  exact dmapOverrideFold_dflt _ _ _ hden

theorem refRows_isOk {children : List ℤ} {bounds : Option (ℚ × ℚ × ℚ × ℚ)}
    {pop : List PopRecord} {ccd : List (ℤ × List CovRecord)} {p : ℤ} :
    ∀ cids : List ℤ, List.all cids (covSeriesOk ccd) = true →
      exceptIsOk (refRows children bounds (some pop) (some ccd) p cids) = true := by
  intro cids
  induction cids with
  | nil => intro _; rfl
  | cons cid rest ih =>
    intro hall
    rw [List.all_cons, Bool.and_eq_true] at hall
    rcases @refRowFor_ok_spec children bounds pop ccd p cid hall.1 with ⟨r, hr, _, _⟩
    rw [refRows, hr]
    cases hrest : refRows children bounds (some pop) (some ccd) p rest with
    | error e =>
      have hok := ih hall.2
      rw [hrest] at hok
      simp [exceptIsOk] at hok
    | ok rs => rfl

theorem observedBounds_eq {ddf : Frame} {aLo aHi tLo tHi : ℚ}
    (h1 : colMinQ ddf "age_lower" = some aLo) (h2 : colMaxQ ddf "age_upper" = some aHi)
    (h3 : colMinQ ddf "time_lower" = some tLo) (h4 : colMaxQ ddf "time_upper" = some tHi) :
    observedBounds ddf = some (aLo, aHi, tLo, tHi) := by
  rw [observedBounds, h1, h2, h3, h4]

theorem getCovRef_reduce {st : State} {p : ℤ} {ddf : Frame} {dag : Dag}
    (hdd : st.dismod_data = some ddf) (hdag : st.location_dag = some dag) :
    getCovariateReferenceMaxDiff st p =
      refRows (dagSuccessors dag p) (observedBounds ddf)
        st.population st.country_covariate_data p st.country_covariate_id := by
  rw [getCovariateReferenceMaxDiff, hdd, hdag]
  simp only [attr]

/-! ## Stage preservation lemmas -/

theorem withStats_statRowOk (den : Dmap String) (eta nu : Dmap (Option ℚ)) (df : Frame) :
    ∀ r ∈ withStats den eta nu df, statRowOk den eta nu r = true := by
  intro r hr
  rw [withStats, applyStat] at hr
  rcases List.mem_map.mp hr with ⟨r2, hr2, rfl⟩
  rw [applyStat] at hr2
  rcases List.mem_map.mp hr2 with ⟨r1, hr1, rfl⟩
  rw [applyStat] at hr1
  rcases List.mem_map.mp hr1 with ⟨r0, _, rfl⟩
  have g1 : ∀ (r : RowA) (v : Val),
      getCol (setCol r "density" v) "measure" = getCol r "measure" :=
    fun r v => getCol_setCol_ne (by decide) r v
  have g2 : ∀ (r : RowA) (v : Val),
      getCol (setCol r "eta" v) "measure" = getCol r "measure" :=
    fun r v => getCol_setCol_ne (by decide) r v
  have g3 : ∀ (r : RowA) (v : Val),
      getCol (setCol r "nu" v) "measure" = getCol r "measure" :=
    fun r v => getCol_setCol_ne (by decide) r v
  have g4 : ∀ (r : RowA) (v : Val),
      getCol (setCol r "eta" v) "density" = getCol r "density" :=
    fun r v => getCol_setCol_ne (by decide) r v
  have g5 : ∀ (r : RowA) (v : Val),
      getCol (setCol r "nu" v) "density" = getCol r "density" :=
    fun r v => getCol_setCol_ne (by decide) r v
  have g6 : ∀ (r : RowA) (v : Val),
      getCol (setCol r "nu" v) "eta" = getCol r "eta" :=
    fun r v => getCol_setCol_ne (by decide) r v
  simp only [statRowOk, Bool.and_eq_true, decide_eq_true_eq]
  simp [g1, g2, g3, g4, g5, g6, getCol_setCol_self]

theorem statRowOk_setCol {den : Dmap String} {eta nu : Dmap (Option ℚ)} {r : RowA}
    {n : String} (h1 : ¬ n = "density") (h2 : ¬ n = "eta") (h3 : ¬ n = "nu")
    (h4 : ¬ n = "measure") (v : Val) (h : statRowOk den eta nu r = true) :
    statRowOk den eta nu (setCol r n v) = true := by
  simp only [statRowOk, Bool.and_eq_true, decide_eq_true_eq] at h ⊢
  rw [getCol_setCol_ne (fun hc => h1 hc.symm), getCol_setCol_ne (fun hc => h2 hc.symm),
    getCol_setCol_ne (fun hc => h3 hc.symm), getCol_setCol_ne (fun hc => h4 hc.symm)]
  exact h

theorem statRowOk_dropKey {den : Dmap String} {eta nu : Dmap (Option ℚ)} {r : RowA}
    (h : statRowOk den eta nu r = true) :
    statRowOk den eta nu (dropKey r "age_group_id") = true := by
  simp only [statRowOk, Bool.and_eq_true, decide_eq_true_eq] at h ⊢
  rw [getCol_dropKey_ne (by decide), getCol_dropKey_ne (by decide),
    getCol_dropKey_ne (by decide), getCol_dropKey_ne (by decide)]
  exact h

theorem finalizeRow_getCol_ne {c : String} (h1 : ¬ c = "s_sex") (h2 : ¬ c = "s_one")
    (h3 : ¬ c = "hold_out") (r : RowA) :
    getCol (finalizeRow r) c = getCol r c := by
  rw [finalizeRow]
  by_cases h : getCol (setCol (setCol r "s_sex" (sexMapVal (getCol r "sex_id")))
      "s_one" (Val.int 1)) "hold_out" = Val.null
  · simp only [h, if_pos, if_true]
    rw [getCol_setCol_ne h3, getCol_setCol_ne h2, getCol_setCol_ne h1]
  · simp only [if_neg h]
    rw [getCol_setCol_ne h2, getCol_setCol_ne h1]

theorem statRowOk_finalizeRow {den : Dmap String} {eta nu : Dmap (Option ℚ)} {r : RowA}
    (h : statRowOk den eta nu r = true) :
    statRowOk den eta nu (finalizeRow r) = true := by
  simp only [statRowOk, Bool.and_eq_true, decide_eq_true_eq] at h ⊢
  rw [finalizeRow_getCol_ne (by decide) (by decide) (by decide),
    finalizeRow_getCol_ne (by decide) (by decide) (by decide),
    finalizeRow_getCol_ne (by decide) (by decide) (by decide),
    finalizeRow_getCol_ne (by decide) (by decide) (by decide)]
  exact h

theorem finalizeRow_colHas_ne {c : String} (h1 : ¬ c = "s_sex") (h2 : ¬ c = "s_one")
    (h3 : ¬ c = "hold_out") {r : RowA} (h : colHas r c = false) :
    colHas (finalizeRow r) c = false := by
  rw [finalizeRow]
  by_cases hh : getCol (setCol (setCol r "s_sex" (sexMapVal (getCol r "sex_id")))
      "s_one" (Val.int 1)) "hold_out" = Val.null
  · simp only [hh, if_pos, if_true]
    rw [colHas_setCol_ne h3, colHas_setCol_ne h2, colHas_setCol_ne h1]
    exact h
  · simp only [if_neg hh]
    rw [colHas_setCol_ne h2, colHas_setCol_ne h1]
    exact h

theorem derivedRowOk_finalizeRow (r : RowA) : derivedRowOk (finalizeRow r) = true := by
  have h1 := finalizeRow_s_one r
  have h2 : getCol (finalizeRow r) "s_sex" = sexMapVal (getCol (finalizeRow r) "sex_id") := by
    rw [finalizeRow_s_sex, finalizeRow_sex_id]
  have h3 := finalizeRow_hold_out_ne_null r
  simp [derivedRowOk, h1, h2, h3]

/-! ## Claims -/

/-- C1: — counterexample. The claim says every returned row has
`max_difference ≥ 0`. In a configured state whose covariate 1 has records
only at location 99 — neither the parent location 70 nor its direct child
71 — `get_covariate_reference_max_diff(70)` returns a row whose
`max_difference` is `np.max` over an empty series, i.e. `NaN` (`none`),
which is not a number `≥ 0`. -/
theorem C1_counterexample :
    getCovariateReferenceMaxDiff cexNoParentDataState 70 =
      Except.ok [{ real_covariate_id := 1, reference := 0, max_difference := none }] := rfl

/-- C1: (amended). For every parent location id, when the state holds an
assembled dataset, location DAG, population and configured covariate data,
and every covariate id in `country_covariate_id` has a **non-empty**
covariate series, `get_covariate_reference_max_diff` returns normally with
exactly one row per covariate id, in order (columns real_covariate_id,
reference, max_difference); in every returned row `max_difference` is
either a non-negative number or `NaN` (the latter exactly when no covariate
record lies at the parent location or one of its direct children). -/
theorem C1_ref_rows_amended (st : State) (p : ℤ) (ddf : Frame) (dag : Dag)
    (pop : List PopRecord) (ccd : List (ℤ × List CovRecord))
    (hdd : st.dismod_data = some ddf) (hdag : st.location_dag = some dag)
    (hpop : st.population = some pop) (hccd : st.country_covariate_data = some ccd)
    (hcov : List.all st.country_covariate_id (covSeriesOk ccd) = true) :
    exceptIsOk (getCovariateReferenceMaxDiff st p) = true ∧
    (∀ rows : List RefRow, getCovariateReferenceMaxDiff st p = Except.ok rows →
      List.map RefRow.real_covariate_id rows = st.country_covariate_id ∧
      List.all rows mdOk = true) := by
  rw [getCovRef_reduce hdd hdag, hpop, hccd]
  exact ⟨refRows_isOk _ hcov, fun rows hok => refRows_spec _ rows hcov hok⟩

/-- C1: — witness for the amended claim at a concrete configured state. -/
theorem C1_witness :
    demoConfigured.dismod_data = some demoFinal ∧
    demoConfigured.location_dag = some [(70, [71])] ∧
    demoConfigured.population = some [⟨70, 3, 0, 10, 1992, 100⟩] ∧
    demoConfigured.country_covariate_data = some [(1, [⟨70, 2, 0, 10, 1992, 2⟩])] ∧
    List.all demoConfigured.country_covariate_id
      (covSeriesOk [(1, [⟨70, 2, 0, 10, 1992, 2⟩])]) = true ∧
    (exceptIsOk (getCovariateReferenceMaxDiff demoConfigured 70) = true ∧
     (∀ rows : List RefRow,
        getCovariateReferenceMaxDiff demoConfigured 70 = Except.ok rows →
        List.map RefRow.real_covariate_id rows = demoConfigured.country_covariate_id ∧
        List.all rows mdOk = true)) :=
  ⟨rfl, rfl, rfl, rfl, rfl,
    C1_ref_rows_amended demoConfigured 70 demoFinal [(70, [71])]
      [⟨70, 3, 0, 10, 1992, 100⟩] [(1, [⟨70, 2, 0, 10, 1992, 2⟩])]
      rfl rfl rfl rfl rfl⟩

/-- C2: the spec's degraded-data scenario — an empty covariate series
for covariate id 12 should yield a result row with reference 0.0 and
max_difference 0.0 — but the code raises instead: the `reference_value = 0.0`
fallback branch builds its result row from all scalar values, which
`pd.DataFrame` rejects with `ValueError: If using all scalar values, you
must pass an index` (and the `np.max` over the empty series is `NaN`, not
0.0, besides). Evaluated here at a configured state with
`country_covariate_id = [12]`, an empty series for 12, parent location 70. -/
theorem C2_empty_covariate_raises :
    getCovariateReferenceMaxDiff cexEmptyCovState 70 =
      Except.error "ValueError: If using all scalar values, you must pass an index" := rfl

/-- C3: — counterexample. The claim says a measure name with no explicit
per-measure setting maps to eta `NaN`. With the global `settings.eta.data`
field set to 1 and no per-measure eta configured, the built eta map sends
the measure name "prevalence" (absent from the per-measure settings, whose
list is empty) to 1, not to `NaN` (`none`). -/
theorem C3_counterexample :
    dataEtaFromSettings cexGlobalEtaSettings = Except.ok ⟨some 1, []⟩ ∧
    cexGlobalEtaSettings.data_eta_by_integrand = [] ∧
    dmapGet ⟨some 1, []⟩ "prevalence" = some 1 ∧
    ¬ (some (1 : ℚ) = (none : Option ℚ)) :=
  ⟨rfl, rfl, rfl, fun h => Option.noConfusion h⟩

/-- C4: for every parent location id, whenever the covariate series for
the first requested covariate id is non-empty, the reference value in its
result row is computed by the interpolation engine applied to a single
synthetic target row whose location is the parent location, whose sex id is
3 ("both"), whose age window is [min age_lower, max age_upper] and time
window [min time_lower, max time_upper] of the assembled dataset, with the
covariate series restricted to the parent location and the population
weights restricted to the parent location. -/
theorem C4_reference_synthetic_row (st : State) (p cid : ℤ) (rest : List ℤ)
    (ddf : Frame) (dag : Dag) (pop : List PopRecord)
    (ccd : List (ℤ × List CovRecord)) (en : ℤ × List CovRecord)
    (rows : List RefRow) (aLo aHi tLo tHi : ℚ)
    (hcids : st.country_covariate_id = cid :: rest)
    (hdd : st.dismod_data = some ddf)
    (ha1 : colMinQ ddf "age_lower" = some aLo)
    (ha2 : colMaxQ ddf "age_upper" = some aHi)
    (ht1 : colMinQ ddf "time_lower" = some tLo)
    (ht2 : colMaxQ ddf "time_upper" = some tHi)
    (hdag : st.location_dag = some dag)
    (hpop : st.population = some pop)
    (hccd : st.country_covariate_data = some ccd)
    (hfind : List.find? (fun e => e.1 = cid) ccd = some en)
    (hne : en.2.isEmpty = false)
    (hok : getCovariateReferenceMaxDiff st p = Except.ok rows) :
    Option.map RefRow.real_covariate_id rows.head? = some cid ∧
    Option.map RefRow.reference rows.head? =
      some (List.headD (getInterpolatedCovariateValues
        [some ⟨p, 3, aLo, aHi, tLo, tHi⟩]
        (List.filter (fun cr => decide (cr.location_id = p)) en.2)
        (List.filter (fun q => decide (q.location_id = p)) pop)) 0) := by
  rw [getCovRef_reduce hdd hdag, hpop, hccd, hcids, refRows,
    refRowFor_reference hfind hne] at hok
  cases hrest : refRows (dagSuccessors dag p) (observedBounds ddf)
      (some pop) (some ccd) p rest with
  | error e => rw [hrest] at hok; cases hok
  | ok rs =>
    rw [hrest] at hok
    injection hok with hok
    rw [← hok]
    constructor
    · rfl
    · rw [observedBounds_eq ha1 ha2 ht1 ht2]
      rfl

/-- C4: — witness at the configured demo state. -/
theorem C4_witness :
    demoConfigured.country_covariate_id = 1 :: [] ∧
    demoConfigured.dismod_data = some demoFinal ∧
    colMinQ demoFinal "age_lower" = some 0 ∧
    colMaxQ demoFinal "age_upper" = some 10 ∧
    colMinQ demoFinal "time_lower" = some 1990 ∧
    colMaxQ demoFinal "time_upper" = some 1995 ∧
    demoConfigured.location_dag = some [(70, [71])] ∧
    demoConfigured.population = some [⟨70, 3, 0, 10, 1992, 100⟩] ∧
    demoConfigured.country_covariate_data = some [(1, [⟨70, 2, 0, 10, 1992, 2⟩])] ∧
    List.find? (fun e => e.1 = 1) [(1, ([⟨70, 2, 0, 10, 1992, 2⟩] : List CovRecord))] =
      some (1, [⟨70, 2, 0, 10, 1992, 2⟩]) ∧
    ([⟨70, 2, 0, 10, 1992, 2⟩] : List CovRecord).isEmpty = false ∧
    getCovariateReferenceMaxDiff demoConfigured 70 =
      Except.ok [⟨1, 2, some 0⟩] ∧
    (Option.map RefRow.real_covariate_id ([⟨1, 2, some 0⟩] : List RefRow).head? = some 1 ∧
     Option.map RefRow.reference ([⟨1, 2, some 0⟩] : List RefRow).head? =
       some (List.headD (getInterpolatedCovariateValues
         [some ⟨70, 3, 0, 10, 1990, 1995⟩]
         (List.filter (fun cr => decide (cr.location_id = 70))
           ((1, ([⟨70, 2, 0, 10, 1992, 2⟩] : List CovRecord)).2))
         (List.filter (fun q => decide (q.location_id = 70))
           [⟨70, 3, 0, 10, 1992, 100⟩])) 0)) :=
  ⟨rfl, rfl, rfl, rfl, rfl, rfl, rfl, rfl, rfl, rfl, rfl, rfl,
    C4_reference_synthetic_row demoConfigured 70 1 [] demoFinal [(70, [71])]
      [⟨70, 3, 0, 10, 1992, 100⟩] [(1, [⟨70, 2, 0, 10, 1992, 2⟩])]
      (1, [⟨70, 2, 0, 10, 1992, 2⟩]) [⟨1, 2, some 0⟩] 0 10 1990 1995
      rfl rfl rfl rfl rfl rfl rfl rfl rfl rfl rfl rfl⟩

/-- C5: after a successful `configure_inputs_for_dismod`, the assembled
dataset has exactly as many rows as the three normalized sources together:
normalized crosswalk (the crosswalk adapter's `configure_for_dismod` output
under the configured measure exclusions) plus ASDR plus CSMR — the
concatenation and every later pipeline stage neither drops nor duplicates
a row. -/
theorem C5_row_count (st : State) (s : Settings) (st' : State)
    (dataF asdrF csmrF df : Frame)
    (hdata : st.data = some dataF) (hasdr : st.asdr = some asdrF)
    (hcsmr : st.csmr = some csmrF)
    (hok : configureInputsForDismod st s = Except.ok st')
    (hdf : st'.dismod_data = some df) :
    df.length = (crosswalkConfigure dataF (measuresToExcludeFromSettings s)).length
      + asdrF.length + csmrF.length := by
  rcases configure_ok_decomp hok with
    ⟨etaM, denM, dataF', asdrF', csmrF', covd, df2, df3,
      _, _, hd', ha', hc', _, h2, h3, hst'⟩
  rw [hdata] at hd'
  injection hd' with hd'
  subst hd'
  rw [hasdr] at ha'
  injection ha' with ha'
  subst ha'
  rw [hcsmr] at hc'
  injection hc' with hc'
  subst hc'
  rw [hst'] at hdf
  simp only at hdf
  injection hdf with hdf
  have l2 := interpolateAll_ok_length _ _ _ h2
  have hd3 := (dropColE_ok h3).2
  rw [← hdf, finalizeFrame, List.length_map, hd3, List.length_map, l2]
  simp [withStats, applyStat, concatSources, crosswalkConfigure,
    List.length_append, List.length_map, Nat.add_assoc]

/-- C5: — witness at the demo state (1 crosswalk + 1 ASDR + 1 CSMR row). -/
theorem C5_witness :
    demoState.data = some demoDataF ∧
    demoState.asdr = some demoAsdrF ∧
    demoState.csmr = some demoCsmrF ∧
    configureInputsForDismod demoState demoSettings = Except.ok demoConfigured ∧
    demoConfigured.dismod_data = some demoFinal ∧
    demoFinal.length =
      (crosswalkConfigure demoDataF (measuresToExcludeFromSettings demoSettings)).length
        + demoAsdrF.length + demoCsmrF.length :=
  ⟨rfl, rfl, rfl, rfl, rfl,
    C5_row_count demoState demoSettings demoConfigured demoDataF demoAsdrF
      demoCsmrF demoFinal rfl rfl rfl rfl rfl⟩

/-- C6: after a successful `configure_inputs_for_dismod`, the assembled
dataset exposes no `age_group_id` column in any row (only the
age_lower/age_upper bounds remain), and the drop happens only after
covariate interpolation for all covariates has completed: the frame the
drop is applied to is the output of the full interpolation stage — which
still carries the column in every row — and the final dataset is obtained
from that dropped frame. -/
theorem C6_age_group_id_dropped (st : State) (s : Settings) (st' : State)
    (dataF asdrF csmrF df2 df3 : Frame) (covd : List (ℤ × List CovRecord))
    (etaM : Dmap (Option ℚ)) (denM : Dmap String)
    (hdata : st.data = some dataF) (hasdr : st.asdr = some asdrF)
    (hcsmr : st.csmr = some csmrF) (hcovd : st.covariate_data = some covd)
    (heta : dataEtaFromSettings s = Except.ok etaM)
    (hden : densityFromSettings s = Except.ok denM)
    (h2 : interpolateAll covd st.population
        (withStats denM etaM (nuFromSettings s)
          (concatSources (crosswalkConfigure dataF (measuresToExcludeFromSettings s))
            asdrF csmrF))
        s.country_covariate = Except.ok df2)
    (h3 : dropColE df2 "age_group_id" = Except.ok df3)
    (hok : configureInputsForDismod st s = Except.ok st') :
    st'.dismod_data = some (finalizeFrame df3) ∧
    frameHasCol df2 "age_group_id" = true ∧
    List.all (finalizeFrame df3) (fun r => !(colHas r "age_group_id")) = true := by
  rcases configure_ok_decomp hok with
    ⟨etaM', denM', dataF', asdrF', csmrF', covd', df2', df3',
      heta', hden', hd', ha', hc', hcv', h2', h3', hst'⟩
  rw [hdata] at hd'
  injection hd' with e1
  subst e1
  rw [hasdr] at ha'
  injection ha' with e2
  subst e2
  rw [hcsmr] at hc'
  injection hc' with e3
  subst e3
  rw [hcovd] at hcv'
  injection hcv' with e4
  subst e4
  rw [heta] at heta'
  injection heta' with e5
  subst e5
  rw [hden] at hden'
  injection hden' with e6
  subst e6
  rw [h2] at h2'
  injection h2' with e7
  subst e7
  rw [h3] at h3'
  injection h3' with e8
  subst e8
  refine ⟨?_, (dropColE_ok h3).1, ?_⟩
  · rw [hst']
  · rw [List.all_eq_true]
    intro x hx
    rcases List.mem_map.mp hx with ⟨y, hy, rfl⟩
    have hy3 : colHas y "age_group_id" = false := by
      have hmap := (dropColE_ok h3).2
      rw [hmap] at hy
      rcases List.mem_map.mp hy with ⟨z, _, rfl⟩
      exact colHas_dropKey_self z _
    have hfin := finalizeRow_colHas_ne (by decide) (by decide) (by decide) hy3
    simp [hfin]

/-- C6: — witness at the demo state. -/
theorem C6_witness :
    demoState.data = some demoDataF ∧
    demoState.asdr = some demoAsdrF ∧
    demoState.csmr = some demoCsmrF ∧
    demoState.covariate_data = some demoCovd ∧
    dataEtaFromSettings demoSettings = Except.ok ⟨none, []⟩ ∧
    densityFromSettings demoSettings = Except.ok ⟨"gaussian", []⟩ ∧
    interpolateAll demoCovd demoState.population
      (withStats ⟨"gaussian", []⟩ ⟨none, []⟩ (nuFromSettings demoSettings)
        (concatSources
          (crosswalkConfigure demoDataF (measuresToExcludeFromSettings demoSettings))
          demoAsdrF demoCsmrF))
      demoSettings.country_covariate = Except.ok demoDf2 ∧
    dropColE demoDf2 "age_group_id" = Except.ok demoDf3 ∧
    configureInputsForDismod demoState demoSettings = Except.ok demoConfigured ∧
    (demoConfigured.dismod_data = some (finalizeFrame demoDf3) ∧
     frameHasCol demoDf2 "age_group_id" = true ∧
     List.all (finalizeFrame demoDf3) (fun r => !(colHas r "age_group_id")) = true) :=
  ⟨rfl, rfl, rfl, rfl, rfl, rfl, rfl, rfl, rfl,
    C6_age_group_id_dropped demoState demoSettings demoConfigured demoDataF
      demoAsdrF demoCsmrF demoDf2 demoDf3 demoCovd ⟨none, []⟩ ⟨"gaussian", []⟩
      rfl rfl rfl rfl rfl rfl rfl rfl rfl⟩

/-- C7: after a successful `configure_inputs_for_dismod`, every row of
the assembled dataset carries the derived constant/indicator columns:
`s_one = 1`, `s_sex` equal to the model-native sex encoding of the row's
sex id, and a non-null hold-out flag; and any row whose hold-out cell was
null before the final fill holds the default 0 afterwards. -/
theorem C7_derived_columns (st : State) (s : Settings) (st' : State) (df : Frame)
    (hok : configureInputsForDismod st s = Except.ok st')
    (hdf : st'.dismod_data = some df) :
    List.all df derivedRowOk = true ∧
    (∀ r : RowA, getCol r "hold_out" = Val.null →
      getCol (finalizeRow r) "hold_out" = Val.num 0) := by
  rcases configure_ok_decomp hok with
    ⟨_, _, _, _, _, _, _, df3, _, _, _, _, _, _, _, _, hst'⟩
  rw [hst'] at hdf
  simp only at hdf
  injection hdf with hdf
  constructor
  · rw [← hdf, List.all_eq_true]
    intro x hx
    rcases List.mem_map.mp hx with ⟨y, _, rfl⟩
    exact derivedRowOk_finalizeRow y
  · intro r hr
    exact finalizeRow_hold_out_default r hr

/-- C7: — witness at the demo state (one source row had a null
hold-out). -/
theorem C7_witness :
    configureInputsForDismod demoState demoSettings = Except.ok demoConfigured ∧
    demoConfigured.dismod_data = some demoFinal ∧
    (List.all demoFinal derivedRowOk = true ∧
     (∀ r : RowA, getCol r "hold_out" = Val.null →
       getCol (finalizeRow r) "hold_out" = Val.num 0)) :=
  ⟨rfl, rfl,
    C7_derived_columns demoState demoSettings demoConfigured demoFinal rfl rfl⟩

/-- C3: (amended). The three statistical configuration maps are total
over measure names — lookup never raises, and a measure name with no
explicit per-measure override resolves to the map's default. The eta
default is `NaN` when the global `settings.eta.data` field is unset or
falsy, and the configured global value when it is set and truthy; the
density default is `"gaussian"` when `settings.model.data_density` is
unset or falsy, and the configured global value when it is set and truthy
(the counterexample shows the original nan-always claim fails in the
truthy case); the nu map sends every measure other than `"students"` /
`"log_students"` to `NaN`. Provided no country covariate is named
density/eta/nu/measure (such a covariate column would overwrite the
joined column during interpolation), every row of the assembled dataset
carries the density/eta/nu value obtained by applying the corresponding
map to that row's measure cell. -/
theorem C3_stat_maps_amended (s : Settings) (st st' : State)
    (etaM : Dmap (Option ℚ)) (denM : Dmap String) (df : Frame)
    (heta : dataEtaFromSettings s = Except.ok etaM)
    (hden : densityFromSettings s = Except.ok denM)
    (hnames : List.all s.country_covariate
      (fun c => !decide (c.name = "density") && !decide (c.name = "eta") &&
        !decide (c.name = "nu") && !decide (c.name = "measure")) = true)
    (hok : configureInputsForDismod st s = Except.ok st')
    (hdf : st'.dismod_data = some df) :
    (∀ k : String, dmapHasKey etaM k = false → dmapGet etaM k = etaM.dflt) ∧
    (∀ k : String, dmapHasKey denM k = false → dmapGet denM k = denM.dflt) ∧
    ((s.eta_data = none ∨ s.eta_data = some 0) → etaM.dflt = none) ∧
    ((s.model_data_density = none ∨ s.model_data_density = some "") →
      denM.dflt = "gaussian") ∧
    (∀ v : ℚ, s.eta_data = some v → ¬ v = 0 → etaM.dflt = some v) ∧
    (∀ v : String, s.model_data_density = some v → ¬ v = "" → denM.dflt = v) ∧
    (∀ k : String, ¬ k = "students" → ¬ k = "log_students" →
      dmapGet (nuFromSettings s) k = none) ∧
    List.all df (statRowOk denM etaM (nuFromSettings s)) = true := by
  have hEd := dataEtaFromSettings_dflt heta
  have hDd := densityFromSettings_dflt hden
  refine ⟨?_, ?_, ?_, ?_, ?_, ?_, ?_, ?_⟩
  · intro k hk
    exact dmapGet_of_no_override _ _ hk
  · intro k hk
    exact dmapGet_of_no_override _ _ hk
  · intro h
    rcases h with h | h <;> simp [hEd, h]
  · intro h
    rcases h with h | h <;> simp [hDd, h]
  · intro v hv hv0
    rw [hEd, hv]
    simp [hv0]
  · intro v hv hv0
    rw [hDd, hv]
    simp [hv0]
  · intro k h1 h2
    have h1' : ¬ "students" = k := fun hc => h1 hc.symm
    have h2' : ¬ "log_students" = k := fun hc => h2 hc.symm
    simp [nuFromSettings, dmapSet, dmapGet, dmapHasKey, List.find?, h1', h2']
  · rcases configure_ok_decomp hok with
      ⟨etaM', denM', dataF, asdrF, csmrF, covd, df2, df3,
        heta', hden', _, _, _, _, h2, h3, hst'⟩
    rw [heta] at heta'
    injection heta' with e5
    subst e5
    rw [hden] at hden'
    injection hden' with e6
    subst e6
    rw [hst'] at hdf
    simp only at hdf
    injection hdf with hdf
    rw [← hdf, List.all_eq_true]
    intro x hx
    rcases List.mem_map.mp hx with ⟨y, hy, rfl⟩
    have hmap := (dropColE_ok h3).2
    rw [hmap] at hy
    rcases List.mem_map.mp hy with ⟨z, hz, rfl⟩
    have hQ2 : ∀ w ∈ df2, statRowOk denM etaM (nuFromSettings s) w = true := by
      refine interpolateAll_preserves _ s.country_covariate _ df2 ?_ h2 ?_
      · intro c hc r v hr
        rw [List.all_eq_true] at hnames
        have hn := hnames c hc
        simp only [Bool.and_eq_true, Bool.not_eq_true', decide_eq_false_iff_not] at hn
        exact statRowOk_setCol hn.1.1.1 hn.1.1.2 hn.1.2 hn.2 v hr
      · exact withStats_statRowOk denM etaM (nuFromSettings s) _
    exact statRowOk_finalizeRow (statRowOk_dropKey (hQ2 z hz))

/-- C3: — witness for the amended claim at the demo settings (global
defaults unset, no per-measure overrides; the set-and-truthy branches of
the conclusion hold vacuously there and are exercised by the
counterexample's settings). -/
theorem C3_witness :
    dataEtaFromSettings demoSettings = Except.ok ⟨none, []⟩ ∧
    densityFromSettings demoSettings = Except.ok ⟨"gaussian", []⟩ ∧
    List.all demoSettings.country_covariate
      (fun c => !decide (c.name = "density") && !decide (c.name = "eta") &&
        !decide (c.name = "nu") && !decide (c.name = "measure")) = true ∧
    configureInputsForDismod demoState demoSettings = Except.ok demoConfigured ∧
    demoConfigured.dismod_data = some demoFinal ∧
    ((∀ k : String, dmapHasKey (⟨none, []⟩ : Dmap (Option ℚ)) k = false →
        dmapGet (⟨none, []⟩ : Dmap (Option ℚ)) k =
          (⟨none, []⟩ : Dmap (Option ℚ)).dflt) ∧
     (∀ k : String, dmapHasKey (⟨"gaussian", []⟩ : Dmap String) k = false →
        dmapGet (⟨"gaussian", []⟩ : Dmap String) k =
          (⟨"gaussian", []⟩ : Dmap String).dflt) ∧
     ((demoSettings.eta_data = none ∨ demoSettings.eta_data = some 0) →
        (⟨none, []⟩ : Dmap (Option ℚ)).dflt = none) ∧
     ((demoSettings.model_data_density = none ∨
        demoSettings.model_data_density = some "") →
        (⟨"gaussian", []⟩ : Dmap String).dflt = "gaussian") ∧
     (∀ v : ℚ, demoSettings.eta_data = some v → ¬ v = 0 →
        (⟨none, []⟩ : Dmap (Option ℚ)).dflt = some v) ∧
     (∀ v : String, demoSettings.model_data_density = some v → ¬ v = "" →
        (⟨"gaussian", []⟩ : Dmap String).dflt = v) ∧
     (∀ k : String, ¬ k = "students" → ¬ k = "log_students" →
        dmapGet (nuFromSettings demoSettings) k = none) ∧
     List.all demoFinal
       (statRowOk ⟨"gaussian", []⟩ ⟨none, []⟩ (nuFromSettings demoSettings)) = true) :=
  ⟨rfl, rfl, rfl, rfl, rfl,
    C3_stat_maps_amended demoSettings demoState demoConfigured ⟨none, []⟩
      ⟨"gaussian", []⟩ demoFinal rfl rfl rfl rfl rfl⟩

/-- C8: `get_covariate_reference_max_diff` is a read-only query: the
source assigns to no attribute of `self`, so the state component of the
call is the unchanged input state, and calling it again on that state
returns the same result — it is callable repeatedly. -/
theorem C8_read_only_repeatable (st : State) (p : ℤ) :
    (getCovariateReferenceMaxDiffM st p).2 = st ∧
    getCovariateReferenceMaxDiffM ((getCovariateReferenceMaxDiffM st p).2) p =
      getCovariateReferenceMaxDiffM st p :=
  ⟨rfl, rfl⟩

/-- C9: covariate interpolation is deterministic — on equal target
rows, covariate series and population weights, two runs of the engine
produce equal (bit-identical, in the exact-arithmetic model) outputs; the
engine is a pure function with a fixed per-row iteration order and no
randomness. -/
theorem C9_interpolation_deterministic (t1 t2 : List (Option TargetRow))
    (c1 c2 : List CovRecord) (p1 p2 : List PopRecord)
    (ht : t1 = t2) (hc : c1 = c2) (hp : p1 = p2) :
    getInterpolatedCovariateValues t1 c1 p1 = getInterpolatedCovariateValues t2 c2 p2 := by
  rw [ht, hc, hp]

/-- C9: — witness at concrete inputs. -/
theorem C9_witness :
    ([some ⟨70, 3, 0, 1, 1990, 1991⟩] : List (Option TargetRow)) =
      [some ⟨70, 3, 0, 1, 1990, 1991⟩] ∧
    ([⟨70, 3, 0, 1, 1990, 5⟩] : List CovRecord) = [⟨70, 3, 0, 1, 1990, 5⟩] ∧
    ([⟨70, 3, 0, 1, 1990, 100⟩] : List PopRecord) = [⟨70, 3, 0, 1, 1990, 100⟩] ∧
    getInterpolatedCovariateValues [some ⟨70, 3, 0, 1, 1990, 1991⟩]
        [⟨70, 3, 0, 1, 1990, 5⟩] [⟨70, 3, 0, 1, 1990, 100⟩] =
      getInterpolatedCovariateValues [some ⟨70, 3, 0, 1, 1990, 1991⟩]
        [⟨70, 3, 0, 1, 1990, 5⟩] [⟨70, 3, 0, 1, 1990, 100⟩] :=
  ⟨rfl, rfl, rfl,
    C9_interpolation_deterministic _ _ _ _ _ _ rfl rfl rfl⟩

/-- C10: calling `configure_inputs_for_dismod` on an instance fresh
from `__init__` — every raw-source slot still `None` — always raises
(either a `KeyError` while building the per-integrand settings maps, or the
dereference of the `None` crosswalk slot) and never returns an assembled
dataset, for every settings object. -/
theorem C10_configure_before_raw_raises (cids : List ℤ) (s : Settings) :
    exceptIsOk (configureInputsForDismod (initState cids) s) = false := by
  cases h : configureInputsForDismod (initState cids) s with
  | error e => rfl
  | ok st' =>
    exfalso
    rcases configure_ok_decomp h with
      ⟨_, _, _, _, _, _, _, _, _, _, hdata, _, _, _, _, _, _⟩
    simp [initState] at hdata

end CascadeAT
